import Mathlib

/-!
Verification of the JPG resizing utility (compress.py).

The program is embedded shallowly:

* The floating-point arithmetic of the source (`percentage / 100.0`,
  `original_width * resize_factor`, `int(...)`) is modelled exactly as IEEE
  binary64 arithmetic over integer mantissa-exponent pairs: `roundQ` rounds a
  rational to the nearest representable double (round to nearest, ties to
  even), `dmul` is the correctly rounded double product, and `truncD` is the
  truncating `int()` conversion. Overflow and subnormal underflow are ignored;
  they cannot occur at the magnitudes this program computes.
* The Pillow collaborator is an abstract record (`ImageLib`) of the
  `decode` / `size` / `resize` / `save` primitives, each of which either
  returns a value or raises an exception (`PyExc`).
* `resize_image_percentage` is translated line by line from the source. The
  body of its try block (`tryBody`) yields the list of observable events
  (collaborator calls and printed messages, in program order) together with
  the exception escaping the block, if any; `handle` models the two except
  clauses.
* The interactive entry point is modelled by `percentLoop` (the percentage
  validation loop, reading from a list of input lines, parameterised by the
  float-parsing function) and `mainRun` (paths first, then the loop, then the
  single Resizer invocation).
-/

/-- Fuel-driven floor of the base-2 logarithm: `lg2Aux fuel n` equals
`Nat.log2 n` whenever `n < 2 ^ fuel`. -/
def lg2Aux : ℕ → ℕ → ℕ
  | 0, _ => 0
  | fuel + 1, n => if n ≤ 1 then 0 else lg2Aux fuel (n / 2) + 1

/-- Floor of log2 on naturals, with fuel ample for every quantity this model meets. -/
def lg2 (n : ℕ) : ℕ := lg2Aux 512 n

/-- Round the nonnegative fraction `num / den` to the nearest natural, ties to even. -/
def rne (num den : ℕ) : ℕ :=
  let q := num / den
  let r := num % den
  if 2 * r < den then q
  else if den < 2 * r then q + 1
  else if q % 2 = 0 then q else q + 1

/-- Floor of log2 of the positive fraction `a / b`, as an integer. -/
def flog2 (a b : ℕ) : ℤ :=
  let d : ℤ := (lg2 a : ℤ) - (lg2 b : ℤ)
  if 0 ≤ d then (if 2 ^ d.toNat * b ≤ a then d else d - 1)
  else (if b ≤ 2 ^ (-d).toNat * a then d else d - 1)

/-- Round the positive fraction `a / b` (with `a, b ≥ 1`) to the nearest IEEE
binary64 value, returned as a mantissa-exponent pair `(m, e)` of value
`m * 2 ^ e` with `2 ^ 52 ≤ m ≤ 2 ^ 53`. -/
def roundPosQ (a b : ℕ) : ℤ × ℤ :=
  let e : ℤ := flog2 a b - 52
  let num := a * 2 ^ (-e).toNat
  let den := b * 2 ^ e.toNat
  ((rne num den : ℤ), e)

/-- Round the rational `n / d` (with `d ≥ 1`) to the nearest IEEE binary64
value, as a mantissa-exponent pair; zero maps to `(0, 0)` and rounding is
symmetric in the sign. -/
def roundQ (n : ℤ) (d : ℕ) : ℤ × ℤ :=
  if n = 0 then (0, 0)
  else if n < 0 then
    let r := roundPosQ n.natAbs d
    (-r.1, r.2)
  else roundPosQ n.natAbs d

/-- IEEE binary64 product of two doubles given as mantissa-exponent pairs:
the exact dyadic product, rounded back to 53 bits of precision. -/
def dmul (x y : ℤ × ℤ) : ℤ × ℤ :=
  let m := x.1 * y.1
  let e := x.2 + y.2
  if 0 ≤ e then roundQ (m * 2 ^ e.toNat) 1
  else roundQ m (2 ^ (-e).toNat)

/-- Truncation toward zero of `m / 2 ^ k`. -/
def truncShift (m : ℤ) (k : ℕ) : ℤ :=
  if m < 0 then -((m.natAbs / 2 ^ k : ℕ) : ℤ) else ((m.natAbs / 2 ^ k : ℕ) : ℤ)

/-- Python `int()` applied to the value of a mantissa-exponent pair:
truncation toward zero. -/
def truncD (v : ℤ × ℤ) : ℤ :=
  if 0 ≤ v.2 then v.1 * 2 ^ v.2.toNat else truncShift v.1 (-v.2).toNat

/-- The double `percentage / 100.0` computed by the source: the exact rational
`percentage / 100` correctly rounded to binary64. The percentage is carried as
the exact rational value of the double the program holds. -/
def resize_factor (percentage : ℚ) : ℤ × ℤ :=
  roundQ percentage.num (100 * percentage.den)

/-- Conversion of a Python int to a double (exact below `2 ^ 53`, correctly
rounded in general), as performed implicitly by `original_width * resize_factor`. -/
def intDouble (w : ℤ) : ℤ × ℤ := roundQ w 1

/-- The dimension computation of the source:
`int(original_width * resize_factor)` in binary64 arithmetic. -/
def newWidth (w : ℤ) (percentage : ℚ) : ℤ :=
  truncD (dmul (intDouble w) (resize_factor percentage))

/-- A Python exception escaping a collaborator call: either `FileNotFoundError`
or any other `Exception`, carrying its message text. -/
inductive PyExc where
  | fileNotFound
  | other (msg : String)
deriving DecidableEq

/-- An observable event of a run: a collaborator call or a printed message,
recorded in program order. -/
inductive Event (Img : Type) where
  | decodeCall (path : String)
  | resizeCall (img : Img) (dims : ℤ × ℤ)
  | saveCall (img : Img) (path : String) (format : Option String)
  | printMsg (msg : String)
deriving DecidableEq

/-- The external image collaborator (Pillow): each primitive either returns a
value or raises. -/
structure ImageLib (Img : Type) where
  decode : String → Except PyExc Img
  size : Img → Except PyExc (ℤ × ℤ)
  resize : Img → ℤ × ℤ → Except PyExc Img
  save : Img → String → Option String → Except PyExc Unit

/-- Message printed by the FileNotFoundError handler. -/
def notFoundMsg (input_path : String) : String :=
  "Error: The file '" ++ input_path ++ "' was not found."

/-- Message printed by the generic exception handler, carrying the text of the
underlying failure. -/
def processingErrorMsg (e : String) : String :=
  "An error occurred during image processing: " ++ e

/-- Informational message of the pass-through branch for percentages ≥ 100. -/
def noResizeMsg : String :=
  "The entered percentage is greater than or equal to 100%. No resizing will be performed."

/-- Success message of the resize branch (float formatting of the percentage is
abstracted by the ToString instance of the exact rational value). -/
def successMsg (percentage : ℚ) (output_path : String) : String :=
  "The image was resized by " ++ toString percentage ++ "% and saved to: " ++ output_path

/-- Range-error message of the validation loop. -/
def rangeMsg : String :=
  "The resizing percentage must be greater than 0 and less than 100 for proper reduction."

/-- Parse-error message of the validation loop. -/
def nonNumericMsg : String :=
  "Invalid input. Please enter a numerical value for the percentage."

/-- The body of the try block of `resize_image_percentage`, translated line by
line: open the image, read its size, branch on `percentage >= 100`, compute the
new dimensions, resize, save. The result is the event list up to the point
reached, plus the exception escaping the block, if any. -/
def tryBody {Img : Type} (lib : ImageLib Img)
    (input_path output_path : String) (percentage : ℚ) :
    List (Event Img) × Option PyExc :=
  match lib.decode input_path with
  | .error e => ([.decodeCall input_path], some e)
  | .ok img =>
    match lib.size img with
    | .error e => ([.decodeCall input_path], some e)
    | .ok (original_width, original_height) =>
      if 100 ≤ percentage then
        match lib.save img output_path none with
        | .error e =>
          ([.decodeCall input_path, .printMsg noResizeMsg,
            .saveCall img output_path none], some e)
        | .ok _ =>
          ([.decodeCall input_path, .printMsg noResizeMsg,
            .saveCall img output_path none], none)
      else
        let new_width := newWidth original_width percentage
        let new_height := newWidth original_height percentage
        match lib.resize img (new_width, new_height) with
        | .error e =>
          ([.decodeCall input_path, .resizeCall img (new_width, new_height)], some e)
        | .ok resized_img =>
          match lib.save resized_img output_path (some "JPEG") with
          | .error e =>
            ([.decodeCall input_path, .resizeCall img (new_width, new_height),
              .saveCall resized_img output_path (some "JPEG")], some e)
          | .ok _ =>
            ([.decodeCall input_path, .resizeCall img (new_width, new_height),
              .saveCall resized_img output_path (some "JPEG"),
              .printMsg (successMsg percentage output_path)], none)

/-- The outcome of a full call: the event trace, and the exception propagating
to the caller (none when the function returns normally). -/
structure RunResult (Img : Type) where
  trace : List (Event Img)
  exc : Option PyExc
deriving DecidableEq

/-- The two except clauses of the source: FileNotFoundError prints the
NotFound message naming the input path; every other exception prints the
processing-error message with the text of the failure. Both return normally. -/
def handle {Img : Type} (input_path : String) :
    List (Event Img) × Option PyExc → RunResult Img
  | (tr, none) => ⟨tr, none⟩
  | (tr, some .fileNotFound) => ⟨tr ++ [.printMsg (notFoundMsg input_path)], none⟩
  | (tr, some (.other e)) => ⟨tr ++ [.printMsg (processingErrorMsg e)], none⟩

/-- The full `resize_image_percentage`: the try block wrapped in its handlers. -/
def resize_image_percentage {Img : Type} (lib : ImageLib Img)
    (input_path output_path : String) (percentage : ℚ) : RunResult Img :=
  handle input_path (tryBody lib input_path output_path percentage)

/-- The resize (scale) calls of a trace, with the image and dimensions passed. -/
def resizeCalls {Img : Type} : List (Event Img) → List (Img × (ℤ × ℤ))
  | [] => []
  | Event.resizeCall i d :: t => (i, d) :: resizeCalls t
  | Event.decodeCall _ :: t => resizeCalls t
  | Event.saveCall _ _ _ :: t => resizeCalls t
  | Event.printMsg _ :: t => resizeCalls t

/-- The save (encode) calls of a trace, with the image, path and explicit
format passed (none when the source gives no format argument). -/
def saveCalls {Img : Type} : List (Event Img) → List (Img × String × Option String)
  | [] => []
  | Event.saveCall i p f :: t => (i, p, f) :: saveCalls t
  | Event.decodeCall _ :: t => saveCalls t
  | Event.resizeCall _ _ :: t => saveCalls t
  | Event.printMsg _ :: t => saveCalls t

/-- The messages printed along a trace, in order. -/
def msgs {Img : Type} : List (Event Img) → List String
  | [] => []
  | Event.printMsg m :: t => m :: msgs t
  | Event.decodeCall _ :: t => msgs t
  | Event.resizeCall _ _ :: t => msgs t
  | Event.saveCall _ _ _ :: t => msgs t

/-- The percentage validation loop of the entry point, reading successive
input lines: a line that does not parse prints the parse-error message and
continues; a parsed value outside (0, 100) prints the range-error message and
continues; a parsed value strictly inside (0, 100) leaves the loop with that
value. The result is the list of printed error messages and the accepted
percentage (none when the input lines run out). -/
def percentLoop (parse : String → Option ℚ) : List String → List String × Option ℚ
  | [] => ([], none)
  | s :: rest =>
    match parse s with
    | none =>
      let r := percentLoop parse rest
      (nonNumericMsg :: r.1, r.2)
    | some v =>
      if 0 < v ∧ v < 100 then ([], some v)
      else
        let r := percentLoop parse rest
        (rangeMsg :: r.1, r.2)

/-- The entry point: read the input path and the output path, run the
validation loop on the remaining lines, and on success invoke the Resizer
exactly once with the three validated values. The result is the list of
printed error messages and the list of Resizer invocations. -/
def mainRun (parse : String → Option ℚ) :
    List String → List String × List (String × String × ℚ)
  | input_file :: output_file :: rest =>
    let r := percentLoop parse rest
    match r.2 with
    | some v => (r.1, [(input_file, output_file, v)])
    | none => (r.1, [])
  | _ => ([], [])

/-- A collaborator on which every primitive succeeds, decoding image 0 of the
given dimensions and resizing to image 1. -/
def okLib (W H : ℤ) : ImageLib ℕ where
  decode := fun _ => .ok 0
  size := fun _ => .ok (W, H)
  resize := fun _ _ => .ok 1
  save := fun _ _ _ => .ok ()

/-- A collaborator whose decode raises FileNotFoundError. -/
def missingLib : ImageLib ℕ where
  decode := fun _ => .error .fileNotFound
  size := fun _ => .ok (100, 200)
  resize := fun _ _ => .ok 1
  save := fun _ _ _ => .ok ()

/-- A collaborator whose resize raises a generic processing failure. -/
def resizeFailLib : ImageLib ℕ where
  decode := fun _ => .ok 0
  size := fun _ => .ok (100, 200)
  resize := fun _ _ => .error (.other "Simulated processing error")
  save := fun _ _ _ => .ok ()

/-- A collaborator decoding a 1 x 10 image whose resize rejects the requested
dimensions. -/
def zeroDimLib : ImageLib ℕ where
  decode := fun _ => .ok 0
  size := fun _ => .ok (1, 10)
  resize := fun _ _ => .error (.other "height and width must be > 0")
  save := fun _ _ _ => .ok ()

/-- A collaborator whose save raises FileNotFoundError (as Python does when
the output directory does not exist), while decode and resize succeed. -/
def saveFnfLib : ImageLib ℕ where
  decode := fun _ => .ok 0
  size := fun _ => .ok (100, 200)
  resize := fun _ _ => .ok 1
  save := fun _ _ _ => .error .fileNotFound

/-- A sample parsing function for the validation-loop witness, defined on the
four input strings of the scenario. -/
def samplePercentParse (s : String) : Option ℚ :=
  if s = "75.5" then some (151 / 2)
  else if s = "100" then some 100
  else if s = "0" then some 0
  else none

/-- Characterisation of the try block when decode raises. -/
theorem tryBody_decode_err {Img : Type} (lib : ImageLib Img)
    (inp out : String) (p : ℚ) (e : PyExc)
    (hd : lib.decode inp = .error e) :
    tryBody lib inp out p = ([.decodeCall inp], some e) := by
  simp only [tryBody, hd]

/-- Characterisation of the try block when reading the size raises. -/
theorem tryBody_size_err {Img : Type} (lib : ImageLib Img)
    (inp out : String) (p : ℚ) (img : Img) (e : PyExc)
    (hd : lib.decode inp = .ok img) (hs : lib.size img = .error e) :
    tryBody lib inp out p = ([.decodeCall inp], some e) := by
  simp only [tryBody, hd, hs]

/-- Characterisation of the try block on the pass-through branch when the save
succeeds. -/
theorem tryBody_pass_ok {Img : Type} (lib : ImageLib Img)
    (inp out : String) (p : ℚ) (img : Img) (W H : ℤ)
    (hd : lib.decode inp = .ok img) (hs : lib.size img = .ok (W, H))
    (hp : 100 ≤ p) (hsave : lib.save img out none = .ok ()) :
    tryBody lib inp out p =
      ([.decodeCall inp, .printMsg noResizeMsg, .saveCall img out none], none) := by
  simp only [tryBody, hd, hs, if_pos hp, hsave]

/-- Characterisation of the try block on the pass-through branch when the save
raises. -/
theorem tryBody_pass_err {Img : Type} (lib : ImageLib Img)
    (inp out : String) (p : ℚ) (img : Img) (W H : ℤ) (e : PyExc)
    (hd : lib.decode inp = .ok img) (hs : lib.size img = .ok (W, H))
    (hp : 100 ≤ p) (hsave : lib.save img out none = .error e) :
    tryBody lib inp out p =
      ([.decodeCall inp, .printMsg noResizeMsg, .saveCall img out none], some e) := by
  simp only [tryBody, hd, hs, if_pos hp, hsave]

/-- Characterisation of the try block on the resize branch when the resize
raises. -/
theorem tryBody_resize_err {Img : Type} (lib : ImageLib Img)
    (inp out : String) (p : ℚ) (img : Img) (W H : ℤ) (e : PyExc)
    (hd : lib.decode inp = .ok img) (hs : lib.size img = .ok (W, H))
    (hp : ¬ 100 ≤ p)
    (hres : lib.resize img (newWidth W p, newWidth H p) = .error e) :
    tryBody lib inp out p =
      ([.decodeCall inp, .resizeCall img (newWidth W p, newWidth H p)], some e) := by
  simp only [tryBody, hd, hs, if_neg hp, hres]

/-- Characterisation of the try block on the resize branch when the resize
succeeds and the save raises. -/
theorem tryBody_save_err {Img : Type} (lib : ImageLib Img)
    (inp out : String) (p : ℚ) (img r : Img) (W H : ℤ) (e : PyExc)
    (hd : lib.decode inp = .ok img) (hs : lib.size img = .ok (W, H))
    (hp : ¬ 100 ≤ p)
    (hres : lib.resize img (newWidth W p, newWidth H p) = .ok r)
    (hsave : lib.save r out (some "JPEG") = .error e) :
    tryBody lib inp out p =
      ([.decodeCall inp, .resizeCall img (newWidth W p, newWidth H p),
        .saveCall r out (some "JPEG")], some e) := by
  simp only [tryBody, hd, hs, if_neg hp, hres, hsave]

/-- Characterisation of the try block on the fully successful resize branch. -/
theorem tryBody_success {Img : Type} (lib : ImageLib Img)
    (inp out : String) (p : ℚ) (img r : Img) (W H : ℤ)
    (hd : lib.decode inp = .ok img) (hs : lib.size img = .ok (W, H))
    (hp : ¬ 100 ≤ p)
    (hres : lib.resize img (newWidth W p, newWidth H p) = .ok r)
    (hsave : lib.save r out (some "JPEG") = .ok ()) :
    tryBody lib inp out p =
      ([.decodeCall inp, .resizeCall img (newWidth W p, newWidth H p),
        .saveCall r out (some "JPEG"), .printMsg (successMsg p out)], none) := by
  simp only [tryBody, hd, hs, if_neg hp, hres, hsave]

/-- The mantissa produced by rounding a positive fraction is nonnegative. -/
theorem roundPosQ_fst_nonneg (a b : ℕ) : 0 ≤ (roundPosQ a b).1 := by
  simp only [roundPosQ]
  exact Int.natCast_nonneg _

/-- Rounding a nonpositive rational to a double yields a nonpositive mantissa. -/
theorem roundQ_fst_nonpos {n : ℤ} (d : ℕ) (hn : n ≤ 0) : (roundQ n d).1 ≤ 0 := by
  unfold roundQ
  split
  · simp
  · split
    · simpa using neg_nonpos.mpr (roundPosQ_fst_nonneg _ _)
    · exact absurd (lt_of_le_of_ne hn (by assumption)) (by assumption)

/-- Rounding a nonnegative rational to a double yields a nonnegative mantissa. -/
theorem roundQ_fst_nonneg {n : ℤ} (d : ℕ) (hn : 0 ≤ n) : 0 ≤ (roundQ n d).1 := by
  unfold roundQ
  split
  · simp
  · split
    · exact absurd hn (by simpa using (by assumption : n < 0))
    · exact roundPosQ_fst_nonneg _ _

/-- A double product of a nonnegative and a nonpositive factor has nonpositive
mantissa. -/
theorem dmul_fst_nonpos {x y : ℤ × ℤ} (hx : 0 ≤ x.1) (hy : y.1 ≤ 0) :
    (dmul x y).1 ≤ 0 := by
  have hm : x.1 * y.1 ≤ 0 := mul_nonpos_iff.mpr (Or.inl ⟨hx, hy⟩)
  simp only [dmul]
  split
  · exact roundQ_fst_nonpos _ (mul_nonpos_iff.mpr (Or.inr ⟨hm, by positivity⟩))
  · exact roundQ_fst_nonpos _ hm

/-- Truncating shift of a nonpositive integer is nonpositive. -/
theorem truncShift_nonpos {m : ℤ} (k : ℕ) (hm : m ≤ 0) : truncShift m k ≤ 0 := by
  unfold truncShift
  split
  · exact neg_nonpos.mpr (Int.natCast_nonneg _)
  · have h0 : m = 0 := le_antisymm hm (not_lt.mp (by assumption))
    subst h0
    simp

/-- Truncation of a double with nonpositive mantissa is nonpositive. -/
theorem truncD_nonpos {v : ℤ × ℤ} (hv : v.1 ≤ 0) : truncD v ≤ 0 := by
  unfold truncD
  split
  · exact mul_nonpos_iff.mpr (Or.inr ⟨hv, by positivity⟩)
  · exact truncShift_nonpos _ hv

/-- For a nonnegative source dimension and a nonpositive percentage, the
computed target dimension is nonpositive. -/
theorem newWidth_nonpos {w : ℤ} {p : ℚ} (hw : 0 ≤ w) (hp : p ≤ 0) :
    newWidth w p ≤ 0 := by
  unfold newWidth
  exact truncD_nonpos
    (dmul_fst_nonpos (roundQ_fst_nonneg _ hw)
      (roundQ_fst_nonpos _ (Rat.num_nonpos.mpr hp)))

/-- Both handlers return normally, whatever the try block did. -/
theorem run_exc_none {Img : Type} (lib : ImageLib Img) (inp out : String) (p : ℚ) :
    (resize_image_percentage lib inp out p).exc = none := by
  unfold resize_image_percentage
  rcases tryBody lib inp out p with ⟨tr, _ | e⟩
  · rfl
  · cases e <;> rfl

/-- On the resize branch the scale operation is called exactly once, with the
computed dimensions, whatever the outcomes of the resize and save calls. -/
theorem run_resizeCalls_resize_branch {Img : Type} (lib : ImageLib Img)
    (inp out : String) (p : ℚ) (img : Img) (W H : ℤ)
    (hd : lib.decode inp = .ok img) (hs : lib.size img = .ok (W, H))
    (hp : ¬ 100 ≤ p) :
    resizeCalls (resize_image_percentage lib inp out p).trace
      = [(img, (newWidth W p, newWidth H p))] := by
  cases hres : lib.resize img (newWidth W p, newWidth H p) with
  | error e =>
    have hb := tryBody_resize_err lib inp out p img W H e hd hs hp hres
    unfold resize_image_percentage
    rw [hb]
    cases e <;> simp [handle, resizeCalls]
  | ok r =>
    cases hsv : lib.save r out (some "JPEG") with
    | error e =>
      have hb := tryBody_save_err lib inp out p img r W H e hd hs hp hres hsv
      unfold resize_image_percentage
      rw [hb]
      cases e <;> simp [handle, resizeCalls]
    | ok u =>
      cases u
      have hb := tryBody_success lib inp out p img r W H hd hs hp hres hsv
      unfold resize_image_percentage
      rw [hb]
      simp [handle, resizeCalls]

/-- Claim C9: for every collaborator behaviour (decode, size, scale and encode
each returning a value or raising), `resize_image_percentage` returns normally;
no exception raised inside its body propagates to the caller. -/
theorem c9_no_propagation {Img : Type} (lib : ImageLib Img) (inp out : String)
    (p : ℚ) : (resize_image_percentage lib inp out p).exc = none :=
  run_exc_none lib inp out p

/-- Witness for C9 at a concrete collaborator and inputs. -/
theorem c9_no_propagation_witness :
    (resize_image_percentage (okLib 100 200) "in.jpg" "out.jpg" 50).exc = none :=
  c9_no_propagation (okLib 100 200) "in.jpg" "out.jpg" 50

/-- Claim C4: when decode raises FileNotFoundError, the run prints exactly the
NotFound message naming the input path, never calls scale or save, and returns
normally. -/
theorem c4_decode_not_found {Img : Type} (lib : ImageLib Img) (inp out : String)
    (p : ℚ) (hd : lib.decode inp = .error .fileNotFound) :
    (resize_image_percentage lib inp out p).trace
      = [.decodeCall inp, .printMsg (notFoundMsg inp)]
    ∧ resizeCalls (resize_image_percentage lib inp out p).trace = []
    ∧ saveCalls (resize_image_percentage lib inp out p).trace = []
    ∧ (resize_image_percentage lib inp out p).exc = none := by
  have hb := tryBody_decode_err lib inp out p _ hd
  unfold resize_image_percentage
  rw [hb]
  simp [handle, resizeCalls, saveCalls]

/-- Witness for C4 at a collaborator whose decode raises FileNotFoundError. -/
theorem c4_decode_not_found_witness :
    (resize_image_percentage missingLib "missing.jpg" "out.jpg" 50).trace
      = [.decodeCall "missing.jpg", .printMsg (notFoundMsg "missing.jpg")]
    ∧ resizeCalls (resize_image_percentage missingLib "missing.jpg" "out.jpg" 50).trace = []
    ∧ saveCalls (resize_image_percentage missingLib "missing.jpg" "out.jpg" 50).trace = []
    ∧ (resize_image_percentage missingLib "missing.jpg" "out.jpg" 50).exc = none :=
  c4_decode_not_found missingLib "missing.jpg" "out.jpg" 50 rfl

/-- Claim C2: for every percentage at least 100 the scale operation is never
called; the decoded image itself is saved to the output path, the informational
no-resize message is printed, and the function returns normally. -/
theorem c2_pass_through {Img : Type} (lib : ImageLib Img) (inp out : String)
    (p : ℚ) (img : Img) (W H : ℤ)
    (hd : lib.decode inp = .ok img) (hs : lib.size img = .ok (W, H))
    (hp : 100 ≤ p) :
    resizeCalls (resize_image_percentage lib inp out p).trace = []
    ∧ saveCalls (resize_image_percentage lib inp out p).trace = [(img, out, none)]
    ∧ noResizeMsg ∈ msgs (resize_image_percentage lib inp out p).trace
    ∧ (resize_image_percentage lib inp out p).exc = none := by
  cases hsv : lib.save img out none with
  | error e =>
    have hb := tryBody_pass_err lib inp out p img W H e hd hs hp hsv
    unfold resize_image_percentage
    rw [hb]
    cases e <;> simp [handle, resizeCalls, saveCalls, msgs]
  | ok u =>
    cases u
    have hb := tryBody_pass_ok lib inp out p img W H hd hs hp hsv
    unfold resize_image_percentage
    rw [hb]
    simp [handle, resizeCalls, saveCalls, msgs]

/-- Witness for C2 at percentage 150 on a 100 x 200 image. -/
theorem c2_pass_through_witness :
    resizeCalls (resize_image_percentage (okLib 100 200) "in.jpg" "out.jpg" 150).trace = []
    ∧ saveCalls (resize_image_percentage (okLib 100 200) "in.jpg" "out.jpg" 150).trace
        = [(0, "out.jpg", none)]
    ∧ noResizeMsg ∈ msgs (resize_image_percentage (okLib 100 200) "in.jpg" "out.jpg" 150).trace
    ∧ (resize_image_percentage (okLib 100 200) "in.jpg" "out.jpg" 150).exc = none :=
  c2_pass_through (okLib 100 200) "in.jpg" "out.jpg" 150 0 100 200 rfl rfl (by norm_num)

set_option maxRecDepth 1000000 in
/-- Counterexample to claim C1 as stated: at percentage 29 on a decoded
100 x 200 image the scale operation is called with dimensions (28, 57),
because `29 / 100.0` rounds below 0.29 in binary64 and the truncating `int()`
conversion then loses one pixel, while the floor formula of the claim gives
(29, 58). -/
theorem c1_floor_formula_counterexample :
    resizeCalls (resize_image_percentage (okLib 100 200) "in.jpg" "out.jpg" 29).trace
      = [(0, (28, 57))]
    ∧ (⌊(100 * (29:ℚ)) / 100⌋, ⌊(200 * (29:ℚ)) / 100⌋) = ((29:ℤ), (58:ℤ))
    ∧ ((28:ℤ), (57:ℤ)) ≠ ((29:ℤ), (58:ℤ)) :=
  ⟨by decide, by norm_num, by decide⟩

set_option maxRecDepth 1000000 in
/-- Claim C1 (amended): for percentages strictly between 0 and 100 and a
decoded image of positive dimensions (W, H), the function computes the scale
factor `percentage / 100.0` in binary64 and calls the scale operation exactly
once, with the dimensions obtained by truncating `int()` conversion of
`W * (p / 100.0)` and `H * (p / 100.0)` in binary64 arithmetic; these agree
with `(floor (W * p / 100), floor (H * p / 100))` at the four quoted examples
on a 100 x 200 image, but not for every percentage. -/
theorem c1_dims_float_trunc {Img : Type} (lib : ImageLib Img) (inp out : String)
    (p : ℚ) (img : Img) (W H : ℤ)
    (hd : lib.decode inp = .ok img) (hs : lib.size img = .ok (W, H))
    (hp0 : 0 < p) (hp1 : p < 100) (hW : 0 < W) (hH : 0 < H) :
    resizeCalls (resize_image_percentage lib inp out p).trace
      = [(img, (newWidth W p, newWidth H p))]
    ∧ (p = 50 ∧ W = 100 ∧ H = 200 → (newWidth W p, newWidth H p) = (50, 100))
    ∧ (p = 25 ∧ W = 100 ∧ H = 200 → (newWidth W p, newWidth H p) = (25, 50))
    ∧ (p = 99 ∧ W = 100 ∧ H = 200 → (newWidth W p, newWidth H p) = (99, 198))
    ∧ (p = 10 ∧ W = 100 ∧ H = 200 → (newWidth W p, newWidth H p) = (10, 20)) := by
  refine ⟨run_resizeCalls_resize_branch lib inp out p img W H hd hs (not_le.mpr hp1),
    ?_, ?_, ?_, ?_⟩ <;>
  · rintro ⟨rfl, rfl, rfl⟩
    decide

set_option maxRecDepth 1000000 in
/-- Witness for the amended C1 at percentage 50 on a 100 x 200 image. -/
theorem c1_dims_float_trunc_witness :
    resizeCalls (resize_image_percentage (okLib 100 200) "in.jpg" "out.jpg" 50).trace
      = [(0, (newWidth 100 50, newWidth 200 50))]
    ∧ (newWidth 100 (50:ℚ), newWidth 200 (50:ℚ)) = (50, 100) := by
  obtain ⟨h1, h2, _, _, _⟩ := c1_dims_float_trunc (okLib 100 200) "in.jpg" "out.jpg" 50
    0 100 200 rfl rfl (by norm_num) (by norm_num) (by norm_num) (by norm_num)
  exact ⟨h1, h2 ⟨rfl, rfl, rfl⟩⟩

/-- Claim C5: a failure raised by the collaborator during scale or encode that
is not a FileNotFoundError is caught; the processing-error message carrying the
text of the failure is printed, after a scale failure no save is invoked, and
the function returns normally. -/
theorem c5_processing_error {Img : Type} (lib : ImageLib Img) (inp out : String)
    (p : ℚ) (img : Img) (W H : ℤ) (e : String)
    (hd : lib.decode inp = .ok img) (hs : lib.size img = .ok (W, H))
    (hp0 : 0 < p) (hp1 : p < 100)
    (hfail : lib.resize img (newWidth W p, newWidth H p) = .error (.other e)
      ∨ ∃ r, lib.resize img (newWidth W p, newWidth H p) = .ok r
          ∧ lib.save r out (some "JPEG") = .error (.other e)) :
    processingErrorMsg e ∈ msgs (resize_image_percentage lib inp out p).trace
    ∧ (resize_image_percentage lib inp out p).exc = none
    ∧ (lib.resize img (newWidth W p, newWidth H p) = .error (.other e) →
        saveCalls (resize_image_percentage lib inp out p).trace = []) := by
  have hple := not_le.mpr hp1
  rcases hfail with hres | ⟨r, hres, hsv⟩
  · have hb := tryBody_resize_err lib inp out p img W H _ hd hs hple hres
    unfold resize_image_percentage
    rw [hb]
    simp [handle, msgs, saveCalls]
  · have hb := tryBody_save_err lib inp out p img r W H _ hd hs hple hres hsv
    unfold resize_image_percentage
    rw [hb]
    refine ⟨by simp [handle, msgs], rfl, ?_⟩
    intro h
    rw [hres] at h
    exact Except.noConfusion h

/-- Witness for C5 at a collaborator whose resize raises a generic failure. -/
theorem c5_processing_error_witness :
    processingErrorMsg "Simulated processing error"
      ∈ msgs (resize_image_percentage resizeFailLib "in.jpg" "out.jpg" 50).trace
    ∧ (resize_image_percentage resizeFailLib "in.jpg" "out.jpg" 50).exc = none
    ∧ saveCalls (resize_image_percentage resizeFailLib "in.jpg" "out.jpg" 50).trace = [] := by
  obtain ⟨h1, h2, h3⟩ := c5_processing_error resizeFailLib "in.jpg" "out.jpg" 50 0 100 200
    "Simulated processing error" rfl rfl (by norm_num) (by norm_num) (Or.inl rfl)
  exact ⟨h1, h2, h3 rfl⟩

/-- Counterexample to claim C6 as stated: on the pass-through path (percentage
100) the source calls `img.save(output_path)` with no format argument, so the
write is not explicitly encoded as JPEG; the format is left to be inferred from
the extension of the output path. -/
theorem c6_jpeg_counterexample :
    saveCalls (resize_image_percentage (okLib 100 200) "in.jpg" "out.png" 100).trace
      = [(0, "out.png", none)]
    ∧ (none : Option String) ≠ some "JPEG" :=
  ⟨by decide, by decide⟩

/-- Claim C6 (amended): the successful resize path saves with the explicit
format "JPEG" regardless of the extension of the output path, while the
pass-through path for percentages at least 100 saves with no explicit format. -/
theorem c6_save_formats {Img : Type} (lib : ImageLib Img) (inp out : String)
    (p : ℚ) (img : Img) (W H : ℤ)
    (hd : lib.decode inp = .ok img) (hs : lib.size img = .ok (W, H)) :
    (100 ≤ p →
      saveCalls (resize_image_percentage lib inp out p).trace = [(img, out, none)])
    ∧ (0 < p → p < 100 →
        ∀ r, lib.resize img (newWidth W p, newWidth H p) = .ok r →
          saveCalls (resize_image_percentage lib inp out p).trace
            = [(r, out, some "JPEG")]) := by
  constructor
  · intro hp
    cases hsv : lib.save img out none with
    | error e =>
      have hb := tryBody_pass_err lib inp out p img W H e hd hs hp hsv
      unfold resize_image_percentage
      rw [hb]
      cases e <;> simp [handle, saveCalls]
    | ok u =>
      cases u
      have hb := tryBody_pass_ok lib inp out p img W H hd hs hp hsv
      unfold resize_image_percentage
      rw [hb]
      simp [handle, saveCalls]
  · intro hp0 hp1 r hres
    have hple := not_le.mpr hp1
    cases hsv : lib.save r out (some "JPEG") with
    | error e =>
      have hb := tryBody_save_err lib inp out p img r W H e hd hs hple hres hsv
      unfold resize_image_percentage
      rw [hb]
      cases e <;> simp [handle, saveCalls]
    | ok u =>
      cases u
      have hb := tryBody_success lib inp out p img r W H hd hs hple hres hsv
      unfold resize_image_percentage
      rw [hb]
      simp [handle, saveCalls]

/-- Witness for the amended C6 on the pass-through path at percentage 100. -/
theorem c6_save_formats_witness :
    saveCalls (resize_image_percentage (okLib 100 200) "in.jpg" "out.png" 100).trace
      = [(0, "out.png", none)] :=
  (c6_save_formats (okLib 100 200) "in.jpg" "out.png" 100 0 100 200 rfl rfl).1
    (by norm_num)

set_option maxRecDepth 1000000 in
/-- Counterexample to claim C7 as stated: with a collaborator whose save raises
FileNotFoundError (decode succeeds), the run at percentage 50 still prints the
NotFound message naming the input path, so a file-not-found failure arising
after the decode step is reported as NotFound. -/
theorem c7_notfound_counterexample :
    saveFnfLib.decode "in.jpg" = .ok 0
    ∧ Event.printMsg (notFoundMsg "in.jpg")
        ∈ (resize_image_percentage saveFnfLib "in.jpg" "out.jpg" 50).trace :=
  ⟨rfl, by decide⟩

/-- Claim C7 (amended): a FileNotFoundError escaping any step of the try block
(decode, pass-through save, scale, or encode) is caught by the single
FileNotFoundError handler, which prints the NotFound message naming the input
path and returns normally; the NotFound report is not exclusive to the decode
step. -/
theorem c7_fnf_handler {Img : Type} (lib : ImageLib Img) (inp out : String)
    (p : ℚ) (h : (tryBody lib inp out p).2 = some PyExc.fileNotFound) :
    (resize_image_percentage lib inp out p).trace
      = (tryBody lib inp out p).1 ++ [.printMsg (notFoundMsg inp)]
    ∧ (resize_image_percentage lib inp out p).exc = none := by
  unfold resize_image_percentage
  rcases hb : tryBody lib inp out p with ⟨tr, ex⟩
  rw [hb] at h
  obtain rfl : ex = some PyExc.fileNotFound := h
  exact ⟨rfl, rfl⟩

/-- Witness for the amended C7 at a collaborator whose save raises
FileNotFoundError. -/
theorem c7_fnf_handler_witness :
    (resize_image_percentage saveFnfLib "in.jpg" "out.jpg" 50).trace
      = (tryBody saveFnfLib "in.jpg" "out.jpg" 50).1
          ++ [.printMsg (notFoundMsg "in.jpg")]
    ∧ (resize_image_percentage saveFnfLib "in.jpg" "out.jpg" 50).exc = none :=
  c7_fnf_handler saveFnfLib "in.jpg" "out.jpg" 50
    (by set_option maxRecDepth 1000000 in decide)

/-- Claim C8: when the truncated target width is zero (and the percentage is
strictly between 0 and 100), no minimum-dimension guard applies: the scale
operation is still called with the zero dimension, and a resulting failure is
reported as a processing error, the function returning normally. -/
theorem c8_zero_dims {Img : Type} (lib : ImageLib Img) (inp out : String)
    (p : ℚ) (img : Img) (W H : ℤ)
    (hd : lib.decode inp = .ok img) (hs : lib.size img = .ok (W, H))
    (hp0 : 0 < p) (hp1 : p < 100) (hw0 : newWidth W p = 0) :
    resizeCalls (resize_image_percentage lib inp out p).trace
      = [(img, (0, newWidth H p))]
    ∧ (∀ e, lib.resize img (newWidth W p, newWidth H p) = .error (.other e) →
        processingErrorMsg e ∈ msgs (resize_image_percentage lib inp out p).trace
        ∧ (resize_image_percentage lib inp out p).exc = none) := by
  constructor
  · have h := run_resizeCalls_resize_branch lib inp out p img W H hd hs (not_le.mpr hp1)
    rwa [hw0] at h
  · intro e hres
    have hb := tryBody_resize_err lib inp out p img W H _ hd hs (not_le.mpr hp1) hres
    unfold resize_image_percentage
    rw [hb]
    simp [handle, msgs]

/-- Witness for C8: a 1 x 10 image at percentage 30 truncates to width 0, the
scale operation receives (0, 3), and its rejection is reported as a processing
error. -/
theorem c8_zero_dims_witness :
    resizeCalls (resize_image_percentage zeroDimLib "in.jpg" "out.jpg" 30).trace
      = [(0, (0, newWidth 10 30))]
    ∧ newWidth 10 (30:ℚ) = 3
    ∧ processingErrorMsg "height and width must be > 0"
        ∈ msgs (resize_image_percentage zeroDimLib "in.jpg" "out.jpg" 30).trace := by
  obtain ⟨h1, h2⟩ := c8_zero_dims zeroDimLib "in.jpg" "out.jpg" 30 0 1 10 rfl rfl
    (by norm_num) (by norm_num) (by set_option maxRecDepth 1000000 in decide)
  exact ⟨h1, by set_option maxRecDepth 1000000 in decide, (h2 _ rfl).1⟩

/-- Claim C10: called directly with a percentage at most 0 on a decoded image
of positive dimensions, the function applies no lower-bound validation: it
computes the truncated target dimensions, which are nonpositive, and calls the
scale operation with them; a rejection by the collaborator is reported as a
processing error and the function returns normally. -/
theorem c10_no_lower_bound {Img : Type} (lib : ImageLib Img) (inp out : String)
    (p : ℚ) (img : Img) (W H : ℤ)
    (hd : lib.decode inp = .ok img) (hs : lib.size img = .ok (W, H))
    (hp : p ≤ 0) (hW : 0 < W) (hH : 0 < H) :
    resizeCalls (resize_image_percentage lib inp out p).trace
      = [(img, (newWidth W p, newWidth H p))]
    ∧ newWidth W p ≤ 0 ∧ newWidth H p ≤ 0
    ∧ (∀ e, lib.resize img (newWidth W p, newWidth H p) = .error (.other e) →
        processingErrorMsg e ∈ msgs (resize_image_percentage lib inp out p).trace
        ∧ (resize_image_percentage lib inp out p).exc = none) := by
  have hple : ¬ 100 ≤ p := not_le.mpr (lt_of_le_of_lt hp (by norm_num))
  refine ⟨run_resizeCalls_resize_branch lib inp out p img W H hd hs hple,
    newWidth_nonpos hW.le hp, newWidth_nonpos hH.le hp, ?_⟩
  intro e hres
  have hb := tryBody_resize_err lib inp out p img W H _ hd hs hple hres
  unfold resize_image_percentage
  rw [hb]
  simp [handle, msgs]

/-- Witness for C10 at percentage -50 on a 100 x 200 image: the scale operation
receives (-50, -100) and its rejection is reported as a processing error. -/
theorem c10_no_lower_bound_witness :
    resizeCalls (resize_image_percentage resizeFailLib "in.jpg" "out.jpg" (-50)).trace
      = [(0, (newWidth 100 (-50), newWidth 200 (-50)))]
    ∧ (newWidth 100 (-50:ℚ), newWidth 200 (-50:ℚ)) = (-50, -100)
    ∧ processingErrorMsg "Simulated processing error"
        ∈ msgs (resize_image_percentage resizeFailLib "in.jpg" "out.jpg" (-50)).trace := by
  obtain ⟨h1, _, _, h4⟩ := c10_no_lower_bound resizeFailLib "in.jpg" "out.jpg" (-50)
    0 100 200 rfl rfl (by norm_num) (by norm_num) (by norm_num)
  exact ⟨h1, by set_option maxRecDepth 1000000 in decide, (h4 _ rfl).1⟩

/-- Claim C3: the validation loop accepts exactly the input strings parsing to
a number strictly inside (0, 100): an accepted string ends the loop at once
with no message; a non-parsing string prints the non-numeric-error message and
re-prompts; a parsed value outside (0, 100) prints the range-error message and
re-prompts. On the inputs "abc", "100", "0", "75.5" the loop prints exactly one
non-numeric-error message and exactly two range-error messages, terminates with
percentage 75.5, and the Resizer is invoked exactly once with the three
validated values. -/
theorem c3_validation_loop (parse : String → Option ℚ) (inp out : String)
    (ha : parse "abc" = none) (h100 : parse "100" = some 100)
    (h0 : parse "0" = some 0) (h755 : parse "75.5" = some (151 / 2)) :
    (∀ s rest v, parse s = some v → 0 < v → v < 100 →
        percentLoop parse (s :: rest) = ([], some v))
    ∧ (∀ s rest, parse s = none →
        percentLoop parse (s :: rest)
          = (nonNumericMsg :: (percentLoop parse rest).1, (percentLoop parse rest).2))
    ∧ (∀ s rest v, parse s = some v → ¬ (0 < v ∧ v < 100) →
        percentLoop parse (s :: rest)
          = (rangeMsg :: (percentLoop parse rest).1, (percentLoop parse rest).2))
    ∧ mainRun parse [inp, out, "abc", "100", "0", "75.5"]
        = ([nonNumericMsg, rangeMsg, rangeMsg], [(inp, out, 151 / 2)])
    ∧ (mainRun parse [inp, out, "abc", "100", "0", "75.5"]).1.count nonNumericMsg = 1
    ∧ (mainRun parse [inp, out, "abc", "100", "0", "75.5"]).1.count rangeMsg = 2 := by
  have hD : mainRun parse [inp, out, "abc", "100", "0", "75.5"]
      = ([nonNumericMsg, rangeMsg, rangeMsg], [(inp, out, 151 / 2)]) := by
    norm_num [mainRun, percentLoop, ha, h100, h0, h755]
  refine ⟨?_, ?_, ?_, hD, ?_, ?_⟩
  · intro s rest v hv hv0 hv1
    simp [percentLoop, hv, hv0, hv1]
  · intro s rest h
    simp [percentLoop, h]
  · intro s rest v hv hnot
    simp [percentLoop, hv, hnot]
  · rw [hD]
    exact (by decide : List.count nonNumericMsg [nonNumericMsg, rangeMsg, rangeMsg] = 1)
  · rw [hD]
    exact (by decide : List.count rangeMsg [nonNumericMsg, rangeMsg, rangeMsg] = 2)

/-- Witness for C3 with a concrete parsing function covering the four inputs
of the scenario. -/
theorem c3_validation_loop_witness :
    mainRun samplePercentParse ["in.jpg", "out.jpg", "abc", "100", "0", "75.5"]
      = ([nonNumericMsg, rangeMsg, rangeMsg], [("in.jpg", "out.jpg", 151 / 2)])
    ∧ (mainRun samplePercentParse
        ["in.jpg", "out.jpg", "abc", "100", "0", "75.5"]).1.count nonNumericMsg = 1
    ∧ (mainRun samplePercentParse
        ["in.jpg", "out.jpg", "abc", "100", "0", "75.5"]).1.count rangeMsg = 2 := by
  obtain ⟨-, -, -, h4, h5, h6⟩ := c3_validation_loop samplePercentParse "in.jpg" "out.jpg"
    rfl rfl rfl rfl
  exact ⟨h4, h5, h6⟩
